import Mathlib

/-
Verification of the tenant-resolution and schema-isolation layer of a
multi-tenant Django backend.

The embedding models, faithfully to the Python source:
  - middleware/tenant_middleware.py  (TenantMiddleware: __call__,
    extract_tenant_info, validate_center_exists, set_tenant_schema,
    set_public_schema, set_schema, process_exception)
  - utils/tenant_utils.py  (create_tenant_schema, delete_tenant_schema,
    migrate_tenant_schema, get_tenant_id_from_schema,
    migrate_all_tenant_schemas)
  - apps/common/models.py  (BaseModel.soft_delete, BaseModel.restore)
  - apps/centers/models.py (Center.save schema creation hook,
    Center.hard_delete)

Strings are modelled as List Char.  The connection's search_path is the
list of schema names set by the last SET search_path statement.  The
Django cache is an association list from key to (value, expiry time);
cache.get returns the stored value only while now < expiry, and
cache.set uses a TTL added to the current time.  Database lookups are
modelled against a table of Center rows (primary key, is_active), with a
flag dbError making the existence query raise, and flags ddlFail,
grantFail, migrateFail, cacheDelFail making the corresponding cursor /
management / cache-delete operations raise, so that the try/except
structure of the Python code is exercised.
-/

deriving instance DecidableEq for Except

namespace TenantCore

/-- Configuration values read from Django settings: the tenant schema
name prefix (settings.TENANT_SCHEMA_PREFIX, e.g. "center_") and the
public schema name (settings.PUBLIC_SCHEMA_NAME). -/
structure Config where
  pfx : List Char
  pubName : List Char
deriving DecidableEq

/-- The literal string "public" hardcoded in the SQL SET search_path
statements (tenant_middleware.py line 130, tenant_utils.py lines 92 and
109), as opposed to the configured public schema name. -/
def pubLit : List Char := "public".toList

/-- The literal URL piece recognised by the compiled pattern
r'/api/centers/([a-f0-9-]\x7b36\x7d)/'. -/
def apiCentersLit : List Char := "/api/centers/".toList

/-- Cache key f"center_exists_\x7bcenter_id\x7d" used by
TenantMiddleware.validate_center_exists (line 89) and by
create_tenant_schema / delete_tenant_schema (tenant_utils.py lines 39
and 67). -/
def cacheKey (centerId : List Char) : List Char :=
  "center_exists_".toList ++ centerId

/-- Python center_id.replace('-', ''). -/
def stripHyphens (l : List Char) : List Char := l.filter (fun c => decide (c ≠ '-'))

/-- Character class of the regex [a-f0-9-]. -/
def isUuidChar (c : Char) : Bool :=
  (c == '-') || (decide ('a' ≤ c) && decide (c ≤ 'f')) || (decide ('0' ≤ c) && decide (c ≤ '9'))

/-- Lowercase hexadecimal digit. -/
def isHexDigit (c : Char) : Bool :=
  (decide ('0' ≤ c) && decide (c ≤ '9')) || (decide ('a' ≤ c) && decide (c ≤ 'f'))

/-- Modelled from the spec: a 36-character canonical-form UUID
(8-4-4-4-12 lowercase hex digit groups separated by hyphens at positions
8, 13, 18, 23).  The spec uses this notion in its description of tenant
identifier validation; the code itself never checks it (it only checks
the regex character class), which is what claim C3 is about. -/
def canonicalUuid (l : List Char) : Bool :=
  decide (l.length = 36) &&
  ((List.range 36).all fun i =>
    if i = 8 ∨ i = 13 ∨ i = 18 ∨ i = 23 then decide (l.getD i ' ' = '-')
    else isHexDigit (l.getD i ' '))

/-- One cache entry: key, stored boolean, absolute expiry time. -/
abbrev CacheEntry := List Char × Bool × Nat

/-- Django cache.get: the stored value while the entry has not expired,
None otherwise. -/
def cacheGet (now : Nat) (cache : List CacheEntry) (key : List Char) : Option Bool :=
  match cache.find? (fun e => decide (e.1 = key)) with
  | some e => if now < e.2.2 then some e.2.1 else none
  | none => none

/-- Remove the entry stored under a key (Django cache.delete). -/
def cacheErase (cache : List CacheEntry) (key : List Char) : List CacheEntry :=
  cache.filter (fun e => decide (e.1 ≠ key))

/-- Django cache.set key value ttl: store with expiry now + ttl,
replacing any previous entry. -/
def cacheSet (now : Nat) (cache : List CacheEntry) (key : List Char) (v : Bool)
    (ttl : Nat) : List CacheEntry :=
  (key, v, now + ttl) :: cacheErase cache key

/-- Combined state: the connection's search_path, the shared cache, the
public-schema centers table (primary key string as it appears in URLs,
is_active flag), and failure flags making the corresponding external
operations raise. -/
structure St where
  searchPath : List (List Char)
  cache : List CacheEntry
  centers : List (List Char × Bool)
  dbError : Bool
  ddlFail : Bool
  grantFail : Bool
  migrateFail : Bool
  cacheDelFail : Bool
deriving DecidableEq

/-- Center.objects.filter(id=center_id, is_active=True).exists() run
against the public schema (tenant_middleware.py line 99). -/
def centerActive (st : St) (centerId : List Char) : Bool :=
  st.centers.any (fun row => decide (row.1 = centerId) && row.2)

/-- TenantMiddleware.set_schema (line 129-130): cursor.execute(
"SET search_path TO schema_name, public"). -/
def setSchema (st : St) (name : List Char) : St :=
  { st with searchPath := [name, pubLit] }

/-- TenantMiddleware.set_public_schema (line 118-120). -/
def setPublicSchema (cfg : Config) (st : St) : St := setSchema st cfg.pubName

/-- TenantMiddleware.set_tenant_schema (lines 107-116): schema name is
TENANT_SCHEMA_PREFIX followed by the center id with hyphens removed. -/
def setTenantSchema (cfg : Config) (st : St) (centerId : List Char) : St :=
  setSchema st (cfg.pfx ++ stripHyphens centerId)

/-- The schema the connection resolves tables in first: head of the
search_path. -/
def activeSchema (st : St) : Option (List Char) := st.searchPath.head?

/-- TenantMiddleware.validate_center_exists (lines 78-105).  Returns the
boolean, the state after the call, and the number of authoritative
database lookups performed (0 on a live cache hit, 1 otherwise).  On a
miss the code first switches to the public schema, queries the Center
table, and caches the result for 300 seconds; if the lookup raises, the
except clause yields False and nothing is cached. -/
def validateCenterExists (cfg : Config) (now : Nat) (st : St) (centerId : List Char) :
    Bool × St × Nat :=
  let key := cacheKey centerId
  match cacheGet now st.cache key with
  | some v => (v, st, 0)
  | none =>
    let st1 := setPublicSchema cfg st
    if st.dbError then (false, st1, 1)
    else
      let ex := centerActive st centerId
      (ex, { st1 with cache := cacheSet now st1.cache key ex 300 }, 1)

/-- The regex r'/api/centers/([a-f0-9-]\x7b36\x7d)/' matched at the
start of l: the 13-character literal, then exactly 36 characters of the
class, then '/'. -/
def matchAtFront (l : List Char) : Option (List Char) :=
  if l.take 13 = apiCentersLit then
    if ((l.drop 13).take 36).length = 36 ∧ ((l.drop 13).take 36).all isUuidChar = true ∧
        ((l.drop 13).drop 36).take 1 = ['/'] then
      some ((l.drop 13).take 36)
    else none
  else none

/-- re.Pattern.search over the path: the group of the match at the
earliest position where the whole pattern matches. -/
def tenantSearch : List Char → Option (List Char)
  | [] => none
  | c :: rest =>
    match matchAtFront (c :: rest) with
    | some seg => some seg
    | none => tenantSearch rest

/-- The dict stored in request.tenant by the middleware. -/
structure TenantInfo where
  centerId : List Char
  schemaName : List Char
deriving DecidableEq

/-- Message of the Http404 raised by extract_tenant_info (line 74). -/
def notFoundMsg (centerId : List Char) : List Char :=
  "Center with ID ".toList ++ centerId ++ " does not exist".toList

/-- TenantMiddleware.extract_tenant_info (lines 50-76).  Except.error
models the raised Http404.  Also returns the state after the call and
the number of database lookups performed. -/
def extractTenantInfo (cfg : Config) (now : Nat) (st : St) (path : List Char) :
    Except (List Char) (Option TenantInfo) × St × Nat :=
  match tenantSearch path with
  | some centerId =>
    let r := validateCenterExists cfg now st centerId
    if r.1 then
      (Except.ok (some ⟨centerId, cfg.pfx ++ stripHyphens centerId⟩), r.2.1, r.2.2)
    else
      (Except.error (notFoundMsg centerId), r.2.1, r.2.2)
  | none => (Except.ok none, st, 0)

/-- Lines 28-41 of TenantMiddleware.__call__: resolve the tenant and
switch the schema (set_tenant_schema on a tenant URL, set_public_schema
otherwise); an Http404 from extract_tenant_info propagates before any
switch. -/
def mwResolveAndSwitch (cfg : Config) (now : Nat) (st : St) (path : List Char) :
    Except (List Char) (Option TenantInfo) × St × Nat :=
  match extractTenantInfo cfg now st path with
  | (Except.error e, st1, n) => (Except.error e, st1, n)
  | (Except.ok none, st1, n) => (Except.ok none, setPublicSchema cfg st1, n)
  | (Except.ok (some t), st1, n) => (Except.ok (some t), setTenantSchema cfg st1 t.centerId, n)

/-- Outcome of the downstream handler: a normal response, or an
unhandled exception raised by the view. -/
inductive HandlerOutcome
  | response
  | exception
deriving DecidableEq

/-- TenantMiddleware.process_exception (lines 132-148): always reset to
the public schema, then let Django handle the exception. -/
def processException (cfg : Config) (st : St) : St := setPublicSchema cfg st

/-- TenantMiddleware.__call__ (lines 28-48) for one request.  The
handler receives the value attached to request.tenant and may mutate
state arbitrarily.  Under Django each middleware's get_response is
wrapped in convert_exception_to_response, so get_response itself never
raises: a view exception first triggers the process_exception hook and
is then converted into an error response, after which line 46
(set_public_schema) still runs.  An Http404 raised by
extract_tenant_info, by contrast, escapes __call__ itself before line 43
and skips line 46. -/
def tenantMiddlewareCall (cfg : Config) (now : Nat) (st : St) (path : List Char)
    (handler : Option TenantInfo → St → HandlerOutcome × St) :
    Except (List Char) HandlerOutcome × St :=
  match mwResolveAndSwitch cfg now st path with
  | (Except.error e, st1, _) => (Except.error e, st1)
  | (Except.ok t, st1, _) =>
    let r := handler t st1
    match r.1 with
    | HandlerOutcome.response => (Except.ok r.1, setPublicSchema cfg r.2)
    | HandlerOutcome.exception =>
      (Except.ok r.1, setPublicSchema cfg (processException cfg r.2))

/-- The finally block of migrate_tenant_schema (lines 106-109):
cursor.execute("SET search_path TO public") - a single schema, the
hardcoded literal. -/
def resetPublicLit (st : St) : St := { st with searchPath := [pubLit] }

/-- migrate_tenant_schema (tenant_utils.py lines 77-109): set
search_path to the tenant schema, run the migrate management command for
the tenant apps (raises iff migrateFail, caught by the except clause
which returns False), and in all cases reset search_path to the literal
"public" in the finally block. -/
def migrateTenantSchema (cfg : Config) (st : St) (centerId : List Char) : Bool × St :=
  let st1 := setSchema st (cfg.pfx ++ centerId)
  (!st.migrateFail, resetPublicLit st1)

/-- create_tenant_schema (tenant_utils.py lines 14-46): CREATE SCHEMA,
two GRANTs, migrate_tenant_schema (its boolean result is discarded),
cache.delete, returning True; any exception among the cursor operations
or the cache delete is caught and yields False.  migrate_tenant_schema
never raises, so a migration failure does not reach the except
clause. -/
def createTenantSchema (cfg : Config) (st : St) (centerId : List Char) : Bool × St :=
  if st.ddlFail then (false, st)
  else if st.grantFail then (false, st)
  else
    let st1 := (migrateTenantSchema cfg st centerId).2
    if st.cacheDelFail then (false, st1)
    else (true, { st1 with cache := cacheErase st1.cache (cacheKey centerId) })

/-- delete_tenant_schema (tenant_utils.py lines 49-74): DROP SCHEMA
CASCADE then cache.delete, False on any exception. -/
def deleteTenantSchema (_cfg : Config) (st : St) (centerId : List Char) : Bool × St :=
  if st.ddlFail then (false, st)
  else if st.cacheDelFail then (false, st)
  else (true, { st with cache := cacheErase st.cache (cacheKey centerId) })

/-- Center.save for a new record (apps/centers/models.py lines 68-97):
the catalog row is inserted active, then create_tenant_schema is called
with str(self.pk).replace('-', ''); its failure only logs. -/
def centerSaveNew (cfg : Config) (st : St) (pk : List Char) : St :=
  let st1 := { st with centers := (pk, true) :: st.centers }
  (createTenantSchema cfg st1 (stripHyphens pk)).2

/-- BaseModel.soft_delete (apps/common/models.py lines 77-88): set
is_active to False and save.  No cache operation is performed. -/
def centerSoftDelete (st : St) (pk : List Char) : St :=
  { st with centers := st.centers.map (fun row => if row.1 = pk then (row.1, false) else row) }

/-- BaseModel.restore (apps/common/models.py lines 90-101): set
is_active to True and save.  No cache operation is performed. -/
def centerRestore (st : St) (pk : List Char) : St :=
  { st with centers := st.centers.map (fun row => if row.1 = pk then (row.1, true) else row) }

/-- Center.hard_delete (apps/centers/models.py lines 109-117):
delete_tenant_schema(str(self.pk).replace('-', '')) then delete the
catalog row. -/
def centerHardDelete (cfg : Config) (st : St) (pk : List Char) : St :=
  let st1 := (deleteTenantSchema cfg st (stripHyphens pk)).2
  { st1 with centers := st1.centers.filter (fun row => decide (row.1 ≠ pk)) }

/-- Python whitespace stripped by int(). -/
def isPySpace (c : Char) : Bool :=
  (c == ' ') || (c == '\t') || (c == '\n') || (c == '\r') || (c == '\x0b') || (c == '\x0c')

/-- str.strip() for the whitespace handling of int(). -/
def stripWs (l : List Char) : List Char :=
  ((l.dropWhile isPySpace).reverse.dropWhile isPySpace).reverse

/-- Numeric value of a decimal digit character. -/
def digitVal (c : Char) : Nat := c.toNat - 48

/-- Remaining digits of a Python integer literal: decimal digits with
single underscores allowed between digits. -/
def digRun : Nat → List Char → Option Nat
  | acc, [] => some acc
  | acc, c :: l =>
    if c.isDigit then digRun (10 * acc + digitVal c) l
    else if c == '_' then
      match l with
      | c2 :: l2 => if c2.isDigit then digRun (10 * acc + digitVal c2) l2 else none
      | [] => none
    else none

/-- Nonempty digit sequence (first character must be a digit). -/
def digitsVal : List Char → Option Nat
  | [] => none
  | c :: l => if c.isDigit then digRun (digitVal c) l else none

/-- Python int(str): strip whitespace, optional single sign, then a
nonempty digit sequence (underscores allowed between digits); None
models the raised ValueError. -/
def pythonIntParse (s : List Char) : Option Int :=
  match stripWs s with
  | '+' :: r => (digitsVal r).map (fun n => (n : Int))
  | '-' :: r => (digitsVal r).map (fun n => -(n : Int))
  | r => (digitsVal r).map (fun n => (n : Int))

/-- Python truthiness of the Optional[int] returned by
get_tenant_id_from_schema: None and 0 are falsy. -/
def pyTruthy : Option Int → Bool
  | none => false
  | some n => !decide (n = 0)

/-- Python str.startswith. -/
def startsWith (l p : List Char) : Bool := decide (l.take p.length = p)

/-- get_tenant_id_from_schema (tenant_utils.py lines 134-149): if the
schema name starts with the prefix, int() of the remainder, with the
ValueError mapped to None; None for non-prefixed names. -/
def getTenantIdFromSchema (cfg : Config) (schemaName : List Char) : Option Int :=
  if startsWith schemaName cfg.pfx then pythonIntParse (schemaName.drop cfg.pfx.length)
  else none

/-- str(int) for the schema name rebuilt inside migrate_tenant_schema
when it is called with the integer from get_tenant_id_from_schema. -/
def intToChars : Int → List Char
  | Int.ofNat n => Nat.toDigits 10 n
  | Int.negSucc n => '-' :: Nat.toDigits 10 (n + 1)

/-- migrate_all_tenant_schemas (tenant_utils.py lines 224-242) applied
to a given list of schema names (the result of list_tenant_schemas).
Returns the recorded results in order, the final state, and the list of
center ids actually passed to migrate_tenant_schema.  The guard is
Python truthiness of the extracted id: None and 0 both record False
without migrating. -/
def migrateAllTenantSchemas (cfg : Config) (st : St) (schemas : List (List Char)) :
    List (List Char × Bool) × St × List Int :=
  match schemas with
  | [] => ([], st, [])
  | sc :: rest =>
    match getTenantIdFromSchema cfg sc with
    | some n =>
      if n = 0 then
        let r := migrateAllTenantSchemas cfg st rest
        ((sc, false) :: r.1, r.2.1, r.2.2)
      else
        let m := migrateTenantSchema cfg st (intToChars n)
        let r := migrateAllTenantSchemas cfg m.2 rest
        ((sc, m.1) :: r.1, r.2.1, n :: r.2.2)
    | none =>
      let r := migrateAllTenantSchemas cfg st rest
      ((sc, false) :: r.1, r.2.1, r.2.2)

/-- The boolean recorded for one schema name by
migrate_all_tenant_schemas, as a function of the migrateFail flag. -/
def resultFlag (cfg : Config) (mf : Bool) (sc : List Char) : Bool :=
  match getTenantIdFromSchema cfg sc with
  | some n => if n = 0 then false else !mf
  | none => false

/-- The migrate call (if any) one schema name contributes. -/
def callOf (cfg : Config) (sc : List Char) : Option Int :=
  match getTenantIdFromSchema cfg sc with
  | some n => if n = 0 then none else some n
  | none => none

/-- A hexadecimal digit is in the character class of the URL regex. -/
lemma uuidChar_of_hex {c : Char} (h : isHexDigit c = true) : isUuidChar c = true := by
  simp only [isHexDigit, Bool.or_eq_true, Bool.and_eq_true, decide_eq_true_eq] at h
  simp only [isUuidChar, Bool.or_eq_true, Bool.and_eq_true, decide_eq_true_eq]
  tauto

/-- A canonical UUID has length 36 and stays inside the regex character
class. -/
lemma canonicalUuid_charset {l : List Char} (h : canonicalUuid l = true) :
    l.length = 36 ∧ l.all isUuidChar = true := by
  unfold canonicalUuid at h
  rw [Bool.and_eq_true] at h
  obtain ⟨h1, h2⟩ := h
  have hlen : l.length = 36 := of_decide_eq_true h1
  refine ⟨hlen, ?_⟩
  rw [List.all_eq_true]
  intro x hx
  obtain ⟨i, hi, rfl⟩ := List.mem_iff_getElem.mp hx
  have hi36 : i < 36 := by omega
  have hall := List.all_eq_true.mp h2 i (List.mem_range.mpr hi36)
  have hgd : l.getD i ' ' = l[i] := List.getD_eq_getElem l ' ' hi
  by_cases hcase : i = 8 ∨ i = 13 ∨ i = 18 ∨ i = 23
  · rw [if_pos hcase] at hall
    have hdash : l.getD i ' ' = '-' := of_decide_eq_true hall
    rw [hgd] at hdash
    rw [hdash]
    rfl
  · rw [if_neg hcase] at hall
    rw [hgd] at hall
    exact uuidChar_of_hex hall

/-- The pattern matches at the front of a path of the decomposed
shape. -/
lemma matchAtFront_of_decomp (id rest : List Char) (h36 : id.length = 36)
    (hchar : id.all isUuidChar = true) :
    matchAtFront (apiCentersLit ++ (id ++ '/' :: rest)) = some id := by
  have hlit : apiCentersLit.length = 13 := rfl
  unfold matchAtFront
  rw [List.take_left' hlit, List.drop_left' hlit, List.take_left' h36, List.drop_left' h36]
  simp [h36, hchar]

/-- A successful front match decomposes the path. -/
lemma matchAtFront_some {l seg : List Char} (h : matchAtFront l = some seg) :
    ∃ rest, l = apiCentersLit ++ (seg ++ '/' :: rest) ∧ seg.length = 36 ∧
      seg.all isUuidChar = true := by
  unfold matchAtFront at h
  by_cases h1 : l.take 13 = apiCentersLit
  · rw [if_pos h1] at h
    by_cases h2 : ((l.drop 13).take 36).length = 36 ∧
        ((l.drop 13).take 36).all isUuidChar = true ∧ ((l.drop 13).drop 36).take 1 = ['/']
    · rw [if_pos h2] at h
      obtain ⟨hlen, hallc, hsl⟩ := h2
      injection h with hseg
      subst hseg
      rcases hd : (l.drop 13).drop 36 with _ | ⟨a, t⟩
      · rw [hd] at hsl
        simp at hsl
      · rw [hd] at hsl
        simp only [List.take_succ_cons, List.take_zero] at hsl
        have ha : a = '/' := by simpa using hsl
        refine ⟨t, ?_, hlen, hallc⟩
        calc l = l.take 13 ++ l.drop 13 := (List.take_append_drop 13 l).symm
          _ = apiCentersLit ++ l.drop 13 := by rw [h1]
          _ = apiCentersLit ++ ((l.drop 13).take 36 ++ (l.drop 13).drop 36) := by
              rw [List.take_append_drop]
          _ = apiCentersLit ++ ((l.drop 13).take 36 ++ '/' :: t) := by rw [hd, ha]
    · rw [if_neg h2] at h
      exact absurd h (by simp)
  · rw [if_neg h1] at h
    exact absurd h (by simp)

/-- A front match is what the search returns. -/
lemma tenantSearch_front {l seg : List Char} (h : matchAtFront l = some seg) :
    tenantSearch l = some seg := by
  cases l with
  | nil =>
    rw [show matchAtFront ([] : List Char) = none from rfl] at h
    exact absurd h (by simp)
  | cons c t =>
    simp only [tenantSearch]
    rw [h]

/-- If the path contains the pattern anywhere, the search succeeds. -/
lemma tenantSearch_isSome_of_decomp (pre id rest : List Char) (h36 : id.length = 36)
    (hchar : id.all isUuidChar = true) :
    (tenantSearch (pre ++ (apiCentersLit ++ (id ++ '/' :: rest)))).isSome = true := by
  induction pre with
  | nil =>
    rw [List.nil_append, tenantSearch_front (matchAtFront_of_decomp id rest h36 hchar)]
    rfl
  | cons c p ih =>
    rw [List.cons_append]
    cases hf : matchAtFront (c :: (p ++ (apiCentersLit ++ (id ++ '/' :: rest)))) with
    | some s =>
      rw [tenantSearch_front hf]
      rfl
    | none =>
      simp only [tenantSearch]
      rw [hf]
      exact ih

/-- A successful search decomposes the path somewhere. -/
lemma tenantSearch_decomp {l : List Char} (h : (tenantSearch l).isSome = true) :
    ∃ pre id rest, l = pre ++ (apiCentersLit ++ (id ++ '/' :: rest)) ∧ id.length = 36 ∧
      id.all isUuidChar = true := by
  induction l with
  | nil => simp [tenantSearch] at h
  | cons c t ih =>
    cases hf : matchAtFront (c :: t) with
    | some seg =>
      obtain ⟨rest, hl, hl36, hlc⟩ := matchAtFront_some hf
      exact ⟨[], seg, rest, by simpa using hl, hl36, hlc⟩
    | none =>
      have ht : (tenantSearch t).isSome = true := by
        simp only [tenantSearch] at h
        rw [hf] at h
        exact h
      obtain ⟨pre, id, rest, hl, hl36, hlc⟩ := ih ht
      refine ⟨c :: pre, id, rest, ?_, hl36, hlc⟩
      rw [List.cons_append, ← hl]

/-- Configuration with the prefix and public schema name the deployment
documents (prefix "center_", public schema "public"). -/
def cfg0 : Config := ⟨"center_".toList, "public".toList⟩

/-- The canonical UUID used in the spec's example scenarios. -/
def uuid0 : List Char := "123e4567-e89b-12d3-a456-426614174000".toList

/-- A state with public search path, empty cache and empty catalog. -/
def stEmpty : St := ⟨[pubLit], [], [], false, false, false, false, false⟩

/-- A handler that returns a response and leaves state unchanged. -/
def hResp : Option TenantInfo → St → HandlerOutcome × St :=
  fun _ s => (HandlerOutcome.response, s)

/-- C1: whenever the request reaches the downstream handler (the tenant
resolution returned without raising), the middleware ends with the
public schema active on the connection, for every handler behaviour -
normal response or view exception (which Django routes through
process_exception and converts to a response before get_response
returns, so line 46 runs in both cases). -/
theorem C1_reset_invariant (cfg : Config) (now : Nat) (st : St) (path : List Char)
    (handler : Option TenantInfo → St → HandlerOutcome × St)
    (t : Option TenantInfo) (st1 : St) (n : Nat)
    (hok : mwResolveAndSwitch cfg now st path = (Except.ok t, st1, n)) :
    activeSchema (tenantMiddlewareCall cfg now st path handler).2 = some cfg.pubName := by
  unfold tenantMiddlewareCall
  rw [hok]
  rcases hr : handler t st1 with ⟨out, st2⟩
  cases out <;> simp [hr, processException, setPublicSchema, setSchema, activeSchema]

/-- Witness for C1 at a public route with a normally returning
handler. -/
theorem C1_witness :
    activeSchema (tenantMiddlewareCall cfg0 0 stEmpty "/api/health/".toList hResp).2
      = some cfg0.pubName :=
  C1_reset_invariant cfg0 0 stEmpty "/api/health/".toList hResp none
    (setPublicSchema cfg0 stEmpty) 0 (by decide)

/-- C2: a request path of the form /api/centers/UUID/... with a
well-formed canonical UUID naming a Center whose existence check
resolves to true (live cached true entry, or cache miss with the Center
active in the catalog and the lookup succeeding) yields a tenant context
whose schema name is the configured prefix followed by the UUID with
hyphens removed, and that schema is activated for the request. -/
theorem C2_schema_from_uuid (cfg : Config) (now : Nat) (st : St)
    (id rest path : List Char)
    (hpath : path = apiCentersLit ++ (id ++ '/' :: rest))
    (hid : canonicalUuid id = true)
    (hex : cacheGet now st.cache (cacheKey id) = some true ∨
      (cacheGet now st.cache (cacheKey id) = none ∧ st.dbError = false ∧
        centerActive st id = true)) :
    (mwResolveAndSwitch cfg now st path).1
      = Except.ok (some ⟨id, cfg.pfx ++ stripHyphens id⟩) ∧
    activeSchema (mwResolveAndSwitch cfg now st path).2.1
      = some (cfg.pfx ++ stripHyphens id) := by
  obtain ⟨h36, hchar⟩ := canonicalUuid_charset hid
  have hsearch : tenantSearch path = some id := by
    rw [hpath]
    exact tenantSearch_front (matchAtFront_of_decomp id rest h36 hchar)
  have hval : (validateCenterExists cfg now st id).1 = true := by
    rcases hex with hc | ⟨hc, hdb, hact⟩
    · simp [validateCenterExists, hc]
    · simp [validateCenterExists, hc, hdb, hact]
  unfold mwResolveAndSwitch extractTenantInfo
  rw [hsearch]
  simp [hval, setTenantSchema, setSchema, activeSchema]

/-- State with a live cached existence flag for uuid0. -/
def stW2 : St := ⟨[pubLit], [(cacheKey uuid0, true, 100)], [], false, false, false, false, false⟩

/-- Witness for C2 at the spec's example UUID: the activated schema is
center_123e4567e89b12d3a456426614174000. -/
theorem C2_witness :
    (mwResolveAndSwitch cfg0 0 stW2 (apiCentersLit ++ (uuid0 ++ '/' :: []))).1
      = Except.ok (some ⟨uuid0, cfg0.pfx ++ stripHyphens uuid0⟩) ∧
    activeSchema (mwResolveAndSwitch cfg0 0 stW2 (apiCentersLit ++ (uuid0 ++ '/' :: []))).2.1
      = some (cfg0.pfx ++ stripHyphens uuid0) :=
  C2_schema_from_uuid cfg0 0 stW2 uuid0 [] _ rfl (by decide) (Or.inl (by decide))

/-- C3 counterexample: the resolver recognises a 36-character run of
[a-f0-9-] that is not a canonical-form UUID (here 36 letters 'a') as a
tenant identifier and resolves a tenant context for it, instead of
treating it as "no tenant". -/
def idAs : List Char := List.replicate 36 'a'

/-- State holding a cached true existence flag for the 36-'a' segment. -/
def stC3 : St := ⟨[pubLit], [(cacheKey idAs, true, 100)], [], false, false, false, false, false⟩

/-- C3 as stated is false: a segment that fails strict 8-4-4-4-12
validation is nevertheless treated as a tenant match. -/
theorem C3_counterexample :
    canonicalUuid idAs = false ∧
    (extractTenantInfo cfg0 0 stC3 (apiCentersLit ++ (idAs ++ '/' :: []))).1
      = Except.ok (some ⟨idAs, cfg0.pfx ++ stripHyphens idAs⟩) := by
  constructor
  · decide
  · decide

/-- C3 amended: the resolver recognises a segment as a tenant identifier
exactly when the path contains /api/centers/ followed by 36 characters
of the class [a-f0-9-] followed by /; any path without such a run (in
particular UUID-resembling segments of the wrong length or with other
characters) is treated as "no tenant" - no error, no tenant match, no
state change.  The 8-4-4-4-12 group structure is not checked. -/
theorem C3_amended (cfg : Config) (now : Nat) (st : St) (path : List Char) :
    ((tenantSearch path).isSome = true ↔
      ∃ pre id rest, path = pre ++ (apiCentersLit ++ (id ++ '/' :: rest)) ∧
        id.length = 36 ∧ id.all isUuidChar = true) ∧
    (tenantSearch path = none →
      extractTenantInfo cfg now st path = (Except.ok none, st, 0)) := by
  constructor
  · constructor
    · exact tenantSearch_decomp
    · rintro ⟨pre, id, rest, rfl, h36, hchar⟩
      exact tenantSearch_isSome_of_decomp pre id rest h36 hchar
  · intro hnone
    unfold extractTenantInfo
    rw [hnone]

/-- A path whose segment has 37 hex characters: it resembles a UUID but
the pattern does not match anywhere in it. -/
def pathC3w : List Char := "/api/centers/0123456789abcdef0123456789abcdef01234/".toList

/-- Witness for C3 amended: the 37-hex-character segment is treated as
"no tenant". -/
theorem C3_witness :
    extractTenantInfo cfg0 0 stEmpty pathC3w = (Except.ok none, stEmpty, 0) :=
  (C3_amended cfg0 0 stEmpty pathC3w).2 (by decide)

/-- Schema left on the connection by a hypothetical earlier request. -/
def leftoverSchema : List Char := "center_deadbeef".toList

/-- State entering the middleware with a non-public schema active and a
live cached "does not exist" entry for uuid0. -/
def stC4 : St := ⟨[leftoverSchema], [(cacheKey uuid0, false, 100)], [], false, false, false,
  false, false⟩

/-- C4 as stated is false: on the 404 path the Http404 escapes __call__
before line 46, no reset runs, and with a live cached false entry the
connection keeps the schema it entered with, which need not be
public. -/
theorem C4_counterexample :
    (tenantMiddlewareCall cfg0 0 stC4 (apiCentersLit ++ (uuid0 ++ '/' :: [])) hResp).1
      = Except.error (notFoundMsg uuid0) ∧
    activeSchema (tenantMiddlewareCall cfg0 0 stC4 (apiCentersLit ++ (uuid0 ++ '/' :: [])) hResp).2
      ≠ some cfg0.pubName := by
  constructor
  · rfl
  · decide

/-- C4 amended: a well-formed tenant UUID whose existence check resolves
to false makes the middleware raise the 404 without ever activating a
tenant schema, but no reset runs after the raise: the final connection
state is exactly the state the existence check left - unchanged from
entry on a live cached false hit, and public only because the check
itself switched to the public schema when it missed the cache. -/
theorem C4_amended (cfg : Config) (now : Nat) (st : St) (id rest path : List Char)
    (handler : Option TenantInfo → St → HandlerOutcome × St)
    (hpath : path = apiCentersLit ++ (id ++ '/' :: rest))
    (h36 : id.length = 36) (hchar : id.all isUuidChar = true)
    (hmiss : (validateCenterExists cfg now st id).1 = false) :
    tenantMiddlewareCall cfg now st path handler
      = (Except.error (notFoundMsg id), (validateCenterExists cfg now st id).2.1) ∧
    (cacheGet now st.cache (cacheKey id) = some false →
      (validateCenterExists cfg now st id).2.1 = st) ∧
    (cacheGet now st.cache (cacheKey id) = none →
      activeSchema (validateCenterExists cfg now st id).2.1 = some cfg.pubName) := by
  have hsearch : tenantSearch path = some id := by
    rw [hpath]
    exact tenantSearch_front (matchAtFront_of_decomp id rest h36 hchar)
  refine ⟨?_, ?_, ?_⟩
  · unfold tenantMiddlewareCall mwResolveAndSwitch extractTenantInfo
    rw [hsearch]
    simp [hmiss]
  · intro hc
    simp [validateCenterExists, hc]
  · intro hc
    simp only [validateCenterExists, hc]
    cases hdb : st.dbError <;>
      simp [hdb, setPublicSchema, setSchema, activeSchema]

/-- Witness for C4 amended at the concrete leftover-schema state. -/
theorem C4_witness :
    tenantMiddlewareCall cfg0 0 stC4 (apiCentersLit ++ (uuid0 ++ '/' :: [])) hResp
      = (Except.error (notFoundMsg uuid0), (validateCenterExists cfg0 0 stC4 uuid0).2.1) ∧
    (validateCenterExists cfg0 0 stC4 uuid0).2.1 = stC4 :=
  ⟨(C4_amended cfg0 0 stC4 uuid0 [] _ hResp rfl (by decide) (by decide) (by decide)).1,
   (C4_amended cfg0 0 stC4 uuid0 [] _ hResp rfl (by decide) (by decide) (by decide)).2.1
     (by decide)⟩

/-- State in which the authoritative lookup raises (dbError) and the
cache has no entry; the Center row is even present and active, but the
catalog is unreachable. -/
def stC5 : St := ⟨[pubLit], [], [(uuid0, true)], true, false, false, false, false⟩

/-- C5: when the cache misses and the authoritative public-schema
lookup raises, validate_center_exists returns false instead of
propagating (the except clause), and the resolver consequently raises
the 404 rather than surfacing a 500 - the unreachable catalog is never
treated as "assume tenant exists". -/
theorem C5_fail_closed (cfg : Config) (now : Nat) (st : St) (id rest path : List Char)
    (hpath : path = apiCentersLit ++ (id ++ '/' :: rest))
    (h36 : id.length = 36) (hchar : id.all isUuidChar = true)
    (herr : st.dbError = true)
    (hmiss : cacheGet now st.cache (cacheKey id) = none) :
    (validateCenterExists cfg now st id).1 = false ∧
    (extractTenantInfo cfg now st path).1 = Except.error (notFoundMsg id) := by
  have hval : (validateCenterExists cfg now st id).1 = false := by
    simp [validateCenterExists, hmiss, herr]
  have hsearch : tenantSearch path = some id := by
    rw [hpath]
    exact tenantSearch_front (matchAtFront_of_decomp id rest h36 hchar)
  refine ⟨hval, ?_⟩
  unfold extractTenantInfo
  rw [hsearch]
  simp [hval]

/-- Witness for C5: unreachable catalog with an existing active Center
still yields false and the 404. -/
theorem C5_witness :
    (validateCenterExists cfg0 0 stC5 uuid0).1 = false ∧
    (extractTenantInfo cfg0 0 stC5 (apiCentersLit ++ (uuid0 ++ '/' :: []))).1
      = Except.error (notFoundMsg uuid0) :=
  C5_fail_closed cfg0 0 stC5 uuid0 [] _ rfl (by decide) (by decide) (by decide) (by decide)

/-- State with a live cached "exists" entry for uuid0 and the Center
row active. -/
def stC6 : St := ⟨[pubLit], [(cacheKey uuid0, true, 100)], [(uuid0, true)], false, false,
  false, false, false⟩

/-- C6 as stated is false: soft-deleting a Center performs no cache
invalidation at all, so the very next existence check still answers
from the stale cached entry and reports the soft-deleted Center as
existing. -/
theorem C6_counterexample :
    (centerSoftDelete stC6 uuid0).cache = stC6.cache ∧
    cacheGet 0 (centerSoftDelete stC6 uuid0).cache (cacheKey uuid0) = some true ∧
    centerActive (centerSoftDelete stC6 uuid0) uuid0 = false ∧
    (validateCenterExists cfg0 0 (centerSoftDelete stC6 uuid0) uuid0).1 = true := by
  exact ⟨rfl, by decide, by decide, by decide⟩

/-- C6 amended: soft-delete and restore touch no cache entry at all;
Center creation and hard-delete do delete a cache entry, but under the
key built from the hyphen-stripped identifier, which differs from the
key under which the middleware caches the (hyphenated) identifier from
the URL whenever the identifier contains a hyphen. -/
theorem C6_amended (cfg : Config) (st : St) (pk : List Char) :
    (centerSoftDelete st pk).cache = st.cache ∧
    (centerRestore st pk).cache = st.cache ∧
    (st.ddlFail = false → st.grantFail = false → st.cacheDelFail = false →
      (centerSaveNew cfg st pk).cache = cacheErase st.cache (cacheKey (stripHyphens pk)) ∧
      (centerHardDelete cfg st pk).cache = cacheErase st.cache (cacheKey (stripHyphens pk))) ∧
    (pk ≠ stripHyphens pk → cacheKey pk ≠ cacheKey (stripHyphens pk)) := by
  refine ⟨rfl, rfl, ?_, ?_⟩
  · intro h1 h2 h3
    constructor
    · simp [centerSaveNew, createTenantSchema, h1, h2, h3, migrateTenantSchema,
        resetPublicLit, setSchema]
    · simp [centerHardDelete, deleteTenantSchema, h1, h3]
  · intro hne heq
    exact hne (List.append_cancel_left heq)

/-- Witness for C6 amended: creation after stC6 erases the stripped-key
entry, and that key differs from the middleware's key for uuid0. -/
theorem C6_witness :
    (centerSaveNew cfg0 stC6 uuid0).cache
      = cacheErase stC6.cache (cacheKey (stripHyphens uuid0)) ∧
    cacheKey uuid0 ≠ cacheKey (stripHyphens uuid0) :=
  ⟨((C6_amended cfg0 stC6 uuid0).2.2.1 rfl rfl rfl).1,
   (C6_amended cfg0 stC6 uuid0).2.2.2 (by decide)⟩

/-- C7: a live cache entry is returned as-is with no database access and
no state change; on a miss (with the lookup succeeding) exactly one
authoritative lookup runs and the result is cached for 300 seconds, so a
second resolution before expiry performs zero further lookups and
returns the same flag, while a resolution at or after expiry performs
exactly one more. -/
theorem C7_cache_memoisation (cfg : Config) (st : St) (id : List Char) (t0 t1 : Nat)
    (v : Bool) :
    (cacheGet t0 st.cache (cacheKey id) = some v →
      validateCenterExists cfg t0 st id = (v, st, 0)) ∧
    (st.dbError = false → cacheGet t0 st.cache (cacheKey id) = none →
      (validateCenterExists cfg t0 st id).2.2 = 1 ∧
      (t1 < t0 + 300 →
        validateCenterExists cfg t1 (validateCenterExists cfg t0 st id).2.1 id
          = ((validateCenterExists cfg t0 st id).1,
             (validateCenterExists cfg t0 st id).2.1, 0)) ∧
      (t0 + 300 ≤ t1 →
        (validateCenterExists cfg t1 (validateCenterExists cfg t0 st id).2.1 id).2.2 = 1)) := by
  constructor
  · intro hc
    simp [validateCenterExists, hc]
  · intro hdb hc
    have h1 : validateCenterExists cfg t0 st id
        = (centerActive st id,
           { st with searchPath := [cfg.pubName, pubLit],
                     cache := (cacheKey id, centerActive st id, t0 + 300) ::
                       cacheErase st.cache (cacheKey id) }, 1) := by
      simp [validateCenterExists, hc, hdb, setPublicSchema, setSchema, cacheSet]
    refine ⟨by rw [h1], ?_, ?_⟩
    · intro hlt
      rw [h1]
      simp [validateCenterExists, cacheGet, hlt]
    · intro hge
      have hnot : ¬ t1 < t0 + 300 := by omega
      rw [h1]
      simp [validateCenterExists, cacheGet, hnot, hdb]

/-- State with an active Center row for uuid0 and an empty cache. -/
def stW7 : St := ⟨[pubLit], [], [(uuid0, true)], false, false, false, false, false⟩

/-- Witness for C7: second resolution 100 seconds after the first does
no further lookup and returns the cached flag. -/
theorem C7_witness :
    validateCenterExists cfg0 100 (validateCenterExists cfg0 0 stW7 uuid0).2.1 uuid0
      = ((validateCenterExists cfg0 0 stW7 uuid0).1,
         (validateCenterExists cfg0 0 stW7 uuid0).2.1, 0) :=
  (((C7_cache_memoisation cfg0 stW7 uuid0 0 100 true).2 (by decide) (by decide)).2.1)
    (by omega)

/-- State in which only the migrate management command fails. -/
def stC8 : St := ⟨[pubLit], [], [], false, false, false, true, false⟩

/-- C8 as stated is false: when the migration step fails,
migrate_tenant_schema reports False, but create_tenant_schema discards
that boolean and still returns True. -/
theorem C8_counterexample :
    (migrateTenantSchema cfg0 stC8 (stripHyphens uuid0)).1 = false ∧
    (createTenantSchema cfg0 stC8 (stripHyphens uuid0)).1 = true :=
  ⟨rfl, rfl⟩

/-- C8 amended: create_tenant_schema never raises and returns false
exactly when the schema DDL, the grants, or the cache delete fail; a
failure of the migration step is swallowed (migrate_tenant_schema
catches it and its False result is discarded), so create still returns
true in that case. -/
theorem C8_amended (cfg : Config) (st : St) (centerId : List Char) :
    (createTenantSchema cfg st centerId).1
      = (!st.ddlFail && !st.grantFail && !st.cacheDelFail) := by
  unfold createTenantSchema
  cases h1 : st.ddlFail <;> cases h2 : st.grantFail <;> cases h3 : st.cacheDelFail <;>
    simp [h1, h2, h3]

/-- State whose connection had a tenant schema active before migrate. -/
def stC9 : St := ⟨["center_previous".toList], [], [], false, false, false, false, false⟩

/-- C9 as stated is false: migrate_tenant_schema does not restore the
schema that was active beforehand; its finally block forces the search
path to the literal public. -/
theorem C9_counterexample :
    (migrateTenantSchema cfg0 stC9 (stripHyphens uuid0)).2.searchPath = [pubLit] ∧
    (migrateTenantSchema cfg0 stC9 (stripHyphens uuid0)).2.searchPath ≠ stC9.searchPath := by
  exact ⟨rfl, by decide⟩

/-- C9 amended: migrate_tenant_schema temporarily activates the tenant
schema and on every exit path (success or failed migration) resets the
search path to exactly the literal public schema, regardless of which
schema was active beforehand. -/
theorem C9_amended (cfg : Config) (st : St) (centerId : List Char) :
    (migrateTenantSchema cfg st centerId).1 = !st.migrateFail ∧
    (migrateTenantSchema cfg st centerId).2 = { st with searchPath := [pubLit] } :=
  ⟨rfl, rfl⟩

/-- Per-schema results and migrate calls recorded by
migrate_all_tenant_schemas. -/
lemma migrateAll_spec (cfg : Config) : ∀ (schemas : List (List Char)) (st : St),
    (migrateAllTenantSchemas cfg st schemas).1
      = schemas.map (fun sc => (sc, resultFlag cfg st.migrateFail sc)) ∧
    (migrateAllTenantSchemas cfg st schemas).2.2 = schemas.filterMap (callOf cfg) := by
  intro schemas
  induction schemas with
  | nil => intro st; exact ⟨rfl, rfl⟩
  | cons sc rest ih =>
    intro st
    cases hg : getTenantIdFromSchema cfg sc with
    | none =>
      simp [migrateAllTenantSchemas, hg, resultFlag, callOf, (ih st).1, (ih st).2]
    | some n =>
      by_cases hz : n = 0
      · subst hz
        simp [migrateAllTenantSchemas, hg, resultFlag, callOf, (ih st).1, (ih st).2]
      · have hr1 := (ih { st with searchPath := [pubLit] }).1
        have hr2 := (ih { st with searchPath := [pubLit] }).2
        simp [migrateAllTenantSchemas, hg, hz, resultFlag, callOf, migrateTenantSchema,
          resetPublicLit, setSchema, hr1, hr2]

/-- C10: a schema name formed by the prefix and a suffix that Python's
int() cannot parse (in particular the hyphen-stripped hex UUID suffixes
the system itself generates) yields None from
get_tenant_id_from_schema; migrate_all_tenant_schemas therefore records
False for every such schema and never invokes migrate for it, while the
other schemas contribute results and migrate calls as usual. -/
theorem C10_hex_schemas_not_migrated (cfg : Config) (s : List Char)
    (hs : pythonIntParse s = none) :
    getTenantIdFromSchema cfg (cfg.pfx ++ s) = none ∧
    ∀ (st : St) (ss1 ss2 : List (List Char)),
      (migrateAllTenantSchemas cfg st (ss1 ++ (cfg.pfx ++ s) :: ss2)).1
        = ss1.map (fun sc => (sc, resultFlag cfg st.migrateFail sc)) ++
          (cfg.pfx ++ s, false) ::
            ss2.map (fun sc => (sc, resultFlag cfg st.migrateFail sc)) ∧
      (migrateAllTenantSchemas cfg st (ss1 ++ (cfg.pfx ++ s) :: ss2)).2.2
        = ss1.filterMap (callOf cfg) ++ ss2.filterMap (callOf cfg) := by
  have h1 : startsWith (cfg.pfx ++ s) cfg.pfx = true := by
    unfold startsWith
    rw [List.take_left]
    simp
  have hget : getTenantIdFromSchema cfg (cfg.pfx ++ s) = none := by
    unfold getTenantIdFromSchema
    simp [h1, List.drop_left, hs]
  refine ⟨hget, ?_⟩
  intro st ss1 ss2
  have hspec := migrateAll_spec cfg (ss1 ++ (cfg.pfx ++ s) :: ss2) st
  constructor
  · rw [hspec.1, List.map_append, List.map_cons]
    simp [resultFlag, hget]
  · rw [hspec.2, List.filterMap_append, List.filterMap_cons]
    simp [callOf, hget]

/-- A hyphen-stripped hex UUID suffix, as built by the system's own
schema naming convention. -/
def hexSuffix : List Char := "123e4567e89b12d3a456426614174000".toList

/-- Witness for C10 at the system's own schema naming convention. -/
theorem C10_witness :
    pythonIntParse hexSuffix = none ∧
    getTenantIdFromSchema cfg0 (cfg0.pfx ++ hexSuffix) = none ∧
    (migrateAllTenantSchemas cfg0 stEmpty [cfg0.pfx ++ hexSuffix]).1
      = [(cfg0.pfx ++ hexSuffix, false)] ∧
    (migrateAllTenantSchemas cfg0 stEmpty [cfg0.pfx ++ hexSuffix]).2.2 = [] :=
  ⟨by decide,
   (C10_hex_schemas_not_migrated cfg0 hexSuffix (by decide)).1,
   ((C10_hex_schemas_not_migrated cfg0 hexSuffix (by decide)).2 stEmpty [] []).1,
   ((C10_hex_schemas_not_migrated cfg0 hexSuffix (by decide)).2 stEmpty [] []).2⟩

end TenantCore
